import Mathlib

/-!
Verification of the Slap Fight game engine (game_logic.py, config.py, models.py,
database.py, bot.py of Paulieoso/Slap_Fight_Bot).

The game session state machine is embedded shallowly: the Python `Game` dataclass
becomes a Lean structure, each static method of `GameLogic` becomes a Lean function,
and the two sources of randomness in `make_ai_move` (`random.random() < 0.2` and
`random.randint(1, 3)`) become explicit parameters.  Python `Optional[int]` fields
become `Option Int`; Python equality tests between an `Optional[int]` and an `int`
(which a bare `==` decides as `False` when the optional is `None`) are embedded by
`optEqInt`.  Python truthiness of an `Optional[int]` (`not x` is true when `x` is
`None` or `0`) is embedded by `pyTruthy`.  The validation error strings returned by
`is_valid_move` and the outcome strings returned by `determine_winner` are embedded
as the inductives `MoveReason` and `WinMsg`, one constructor per distinct return
site, since only their identity matters to the specification.
-/

/-- GameState enumeration from models.py lines 9-17. -/
inductive GameState where
  | waiting
  | player1_choose_slap
  | player2_guess
  | player2_choose_slap
  | player1_guess
  | round_end
  | game_end
  | timed_out
deriving DecidableEq

/-- ActionType enumeration from game_logic.py lines 13-17. -/
inductive ActionType where
  | slap
  | guess
  | club
  | flinch
deriving DecidableEq

/-- Game dataclass from models.py lines 72-89.  Timestamps are modelled as
integers (the claims about them only use integer offsets). -/
structure Game where
  game_id : Int
  player1_id : Int
  player2_id : Option Int
  player1_hp : Int
  player2_hp : Int
  player1_clubs : Int
  player2_clubs : Int
  player1_flinches : Int
  player2_flinches : Int
  current_turn : Option Int
  round_number : Int
  state : GameState
  player1_slap : Option Int
  player2_slap : Option Int
  created_at : Int
  updated_at : Int
deriving DecidableEq

/-- Config.MAX_CLUBS, config.py line 12. -/
def MAX_CLUBS : Int := 2

/-- Config.MAX_FLINCHES, config.py line 13. -/
def MAX_FLINCHES : Int := 2

/-- Config.MAX_HP, config.py line 14. -/
def MAX_HP : Int := 20

/-- Config.CLUB_DAMAGE, config.py line 15. -/
def CLUB_DAMAGE : Int := 4

/-- Config.FLINCH_DAMAGE, config.py line 16. -/
def FLINCH_DAMAGE : Int := 1

/-- Config.TOTAL_ROUNDS, config.py line 17. -/
def TOTAL_ROUNDS : Int := 5

/-- Config.GAME_TIMEOUT, config.py line 19. -/
def GAME_TIMEOUT : Int := 300

/-- Python equality between an `Optional[int]` and an `int`: `None == p` is
`False`, `v == p` is integer equality. -/
def optEqInt : Option Int → Int → Bool
  | none, _ => false
  | some v, p => v == p

/-- Python truthiness of an `Optional[int]`: `None` and `0` are falsy. -/
def pyTruthy : Option Int → Bool
  | none => false
  | some v => !(v == 0)

/-- Result tags for the second component returned by `is_valid_move`, one
constructor per distinct message string in game_logic.py lines 32-84:
notYourTurn for line 37, notInSession for line 41, clubsExhausted for line 48,
clubWrongPhase for line 52, flinchesExhausted for line 58, flinchWrongPhase for
line 62, slapBadValue for line 67, slapWrongPhase for line 72, guessBadValue for
line 77, guessWrongPhase for line 82, and valid for line 84. -/
inductive MoveReason where
  | valid
  | notYourTurn
  | notInSession
  | clubsExhausted
  | clubWrongPhase
  | flinchesExhausted
  | flinchWrongPhase
  | slapBadValue
  | slapWrongPhase
  | guessBadValue
  | guessWrongPhase
deriving DecidableEq

/-- Python membership test `value in [1, 2, 3]` for an `Optional[int]` value
(`None in [1, 2, 3]` is `False`). -/
def valueIn123 : Option Int → Bool
  | none => false
  | some v => v == 1 || v == 2 || v == 3

/-- GameLogic.is_valid_move, game_logic.py lines 32-84.  The chain of early
returns is embedded as nested conditionals; the trailing `return True` of line
84 is reached by each action branch that falls through its checks. -/
def is_valid_move (game : Game) (player_id : Int) (action : ActionType)
    (value : Option Int) : Bool × MoveReason :=
  if !optEqInt game.current_turn player_id then
    (false, .notYourTurn)
  else if !(player_id == game.player1_id || optEqInt game.player2_id player_id) then
    (false, .notInSession)
  else
    match action with
    | .club =>
      let clubs_used := if player_id == game.player1_id then game.player1_clubs
                        else game.player2_clubs
      if clubs_used ≥ MAX_CLUBS then (false, .clubsExhausted)
      else if !(game.state == .player1_choose_slap || game.state == .player2_choose_slap) then
        (false, .clubWrongPhase)
      else (true, .valid)
    | .flinch =>
      let flinches_used := if player_id == game.player1_id then game.player1_flinches
                           else game.player2_flinches
      if flinches_used ≥ MAX_FLINCHES then (false, .flinchesExhausted)
      else if !(game.state == .player1_guess || game.state == .player2_guess) then
        (false, .flinchWrongPhase)
      else (true, .valid)
    | .slap =>
      if !valueIn123 value then (false, .slapBadValue)
      else if (player_id == game.player1_id && !(game.state == .player1_choose_slap)) ||
              (optEqInt game.player2_id player_id && !(game.state == .player2_choose_slap)) then
        (false, .slapWrongPhase)
      else (true, .valid)
    | .guess =>
      if !valueIn123 value then (false, .guessBadValue)
      else if (player_id == game.player1_id && !(game.state == .player1_guess)) ||
              (optEqInt game.player2_id player_id && !(game.state == .player2_guess)) then
        (false, .guessWrongPhase)
      else (true, .valid)

/-- GameLogic.calculate_damage, game_logic.py lines 20-30.  Returns the pair
(damage to the slapping seat, counter damage to the guessing seat). -/
def calculate_damage (slap_count guess_count : Int) : Int × Int :=
  let difference := (slap_count - guess_count).natAbs
  if difference == 0 then (1, 1)
  else if difference == 1 then (2, 0)
  else (3, 0)

/-- GameLogic.process_slap, game_logic.py lines 86-103.  The database logging
call on line 100 is external output and has no effect on the session. -/
def process_slap (game : Game) (player_id slap_count : Int) : Game :=
  if player_id == game.player1_id then
    { game with player1_slap := some slap_count,
                state := .player2_guess,
                current_turn := game.player2_id }
  else
    { game with player2_slap := some slap_count,
                state := .player1_guess,
                current_turn := some game.player1_id }

/-- Round resolution tail of GameLogic.process_guess, game_logic.py lines
134-149: end the game when either side is at or below zero hit points or the
round counter has reached TOTAL_ROUNDS, otherwise advance the round, clear both
pending slaps, and hand the new round to the seat selected by round parity. -/
def finish_round (game : Game) : Game :=
  if game.player1_hp ≤ 0 || game.player2_hp ≤ 0 || game.round_number ≥ TOTAL_ROUNDS then
    { game with state := .game_end }
  else
    let g2 := { game with round_number := game.round_number + 1,
                          player1_slap := none,
                          player2_slap := none }
    if g2.round_number % 2 == 1 then
      { g2 with state := .player1_choose_slap, current_turn := some g2.player1_id }
    else
      { g2 with state := .player2_choose_slap, current_turn := g2.player2_id }

/-- GameLogic.process_guess, game_logic.py lines 105-151.  The guessed seat
reads the opposing pending slap; in Python a `None` pending slap makes the
subtraction `abs(slap_count - guess_count)` raise a TypeError, embedded here as
`none`.  Logging calls (lines 124-132) are external output. -/
def process_guess (game : Game) (player_id guess_count : Int) : Option Game :=
  if player_id == game.player1_id then
    match game.player2_slap with
    | none => none
    | some slap_count =>
      let dc := calculate_damage slap_count guess_count
      some (finish_round { game with player1_hp := game.player1_hp - dc.2,
                                     player2_hp := game.player2_hp - dc.1 })
  else
    match game.player1_slap with
    | none => none
    | some slap_count =>
      let dc := calculate_damage slap_count guess_count
      some (finish_round { game with player2_hp := game.player2_hp - dc.2,
                                     player1_hp := game.player1_hp - dc.1 })

/-- GameLogic.process_club, game_logic.py lines 153-177. -/
def process_club (game : Game) (player_id : Int) : Game :=
  let g :=
    if player_id == game.player1_id then
      { game with player1_clubs := game.player1_clubs + 1,
                  player2_hp := game.player2_hp - CLUB_DAMAGE,
                  current_turn := game.player2_id,
                  state := .player2_choose_slap }
    else
      { game with player2_clubs := game.player2_clubs + 1,
                  player1_hp := game.player1_hp - CLUB_DAMAGE,
                  current_turn := some game.player1_id,
                  state := .player1_choose_slap }
  if g.player1_hp ≤ 0 || g.player2_hp ≤ 0 then { g with state := .game_end } else g

/-- GameLogic.process_flinch, game_logic.py lines 179-203. -/
def process_flinch (game : Game) (player_id : Int) : Game :=
  let g :=
    if player_id == game.player1_id then
      { game with player1_flinches := game.player1_flinches + 1,
                  player2_hp := game.player2_hp - FLINCH_DAMAGE,
                  current_turn := game.player2_id,
                  state := .player2_choose_slap }
    else
      { game with player2_flinches := game.player2_flinches + 1,
                  player1_hp := game.player1_hp - FLINCH_DAMAGE,
                  current_turn := some game.player1_id,
                  state := .player1_choose_slap }
  if g.player1_hp ≤ 0 || g.player2_hp ≤ 0 then { g with state := .game_end } else g

/-- Result tags for the message string returned by `determine_winner`, one
constructor per distinct message shape in game_logic.py lines 205-223:
notOverYet for line 209, draw for lines 212 and 223, playerWins for lines 214
and 216 (the winning id is carried in the first component of the returned
pair), playerWinsByHp for lines 219 and 221. -/
inductive WinMsg where
  | notOverYet
  | draw
  | playerWins
  | playerWinsByHp
deriving DecidableEq

/-- GameLogic.determine_winner, game_logic.py lines 205-223.  Returns the
winning id (note that line 214 and line 221 return `game.player2_id`, which is
`None` in a session with an unbound second seat) and the message tag. -/
def determine_winner (game : Game) : Option Int × WinMsg :=
  if !(game.state == .game_end) then (none, .notOverYet)
  else if game.player1_hp ≤ 0 && game.player2_hp ≤ 0 then (none, .draw)
  else if game.player1_hp ≤ 0 then (game.player2_id, .playerWins)
  else if game.player2_hp ≤ 0 then (some game.player1_id, .playerWins)
  else if game.player1_hp > game.player2_hp then (some game.player1_id, .playerWinsByHp)
  else if game.player2_hp > game.player1_hp then (game.player2_id, .playerWinsByHp)
  else (none, .draw)

/-- GameLogic.make_ai_move, game_logic.py lines 225-248.  The draw
`random.random() < 0.2` of the branch that is executed is passed as `r` and the
draw `random.randint(1, 3)` as `v`.  Line 228 reads `if not game.player2_id:
return game`, so a session whose second seat is unbound (or bound to id 0) is
returned unchanged; a `none` result propagates a `None` pending slap read inside
`process_guess`. -/
def make_ai_move (game : Game) (r : Bool) (v : Int) : Option Game :=
  if !pyTruthy game.player2_id then some game
  else
    match game.player2_id with
    | none => some game
    | some p2 =>
      if game.state == .player2_choose_slap then
        if game.player2_clubs < MAX_CLUBS && r then some (process_club game p2)
        else some (process_slap game p2 v)
      else if game.state == .player2_guess then
        if game.player2_flinches < MAX_FLINCHES && r then some (process_flinch game p2)
        else process_guess game p2 v
      else some game

/-- GameLogic.check_game_timeout, game_logic.py lines 250-254.  The source body
is `current_time = time.time(); return (current_time - game.updated_at) >
config.GAME_TIMEOUT`, but game_logic.py never imports the `time` module, so in
the source every call raises `NameError`; this definition embeds the comparison
of line 254 with the current time passed explicitly, which is the behaviour the
line computes once the missing import is supplied. -/
def check_game_timeout (game : Game) (current_time : Int) : Bool :=
  (current_time - game.updated_at) > GAME_TIMEOUT

/-- Database.create_game, database.py lines 141-159 together with the games
table defaults of lines 53-71: fresh sessions start with both seats at MAX_HP,
zero clubs and flinches on both sides, no pending slaps, round 1, state
PLAYER1_CHOOSE_SLAP, and the first seat to move. -/
def create_game (game_id player1_id : Int) (player2_id : Option Int)
    (timestamp : Int) : Game :=
  { game_id := game_id
    player1_id := player1_id
    player2_id := player2_id
    player1_hp := MAX_HP
    player2_hp := MAX_HP
    player1_clubs := 0
    player2_clubs := 0
    player1_flinches := 0
    player2_flinches := 0
    current_turn := some player1_id
    round_number := 1
    state := .player1_choose_slap
    player1_slap := none
    player2_slap := none
    created_at := timestamp
    updated_at := timestamp }

/-- Validate-then-apply flow of the four action handlers in bot.py (handle_slap
line 375, handle_guess line 413, handle_club line 459, handle_flinch line 505):
when `is_valid_move` rejects, the handler answers with the error and leaves the
loaded session untouched; otherwise it applies the matching process function.
The slap and guess handlers always carry an integer value. -/
def handle_action (game : Game) (player_id : Int) (action : ActionType)
    (value : Option Int) : Option Game :=
  if (is_valid_move game player_id action value).1 then
    match action, value with
    | .slap, some v => some (process_slap game player_id v)
    | .slap, none => none
    | .guess, some v => process_guess game player_id v
    | .guess, none => none
    | .club, _ => some (process_club game player_id)
    | .flinch, _ => some (process_flinch game player_id)
  else some game

/-- One validated engine step: an action that passes `is_valid_move` followed by
the matching process function, as performed by the bot.py handlers. -/
inductive Step : Game → Game → Prop where
  | slap {g : Game} (pid v : Int)
      (h : (is_valid_move g pid .slap (some v)).1 = true) :
      Step g (process_slap g pid v)
  | guess {g g2 : Game} (pid v : Int)
      (h : (is_valid_move g pid .guess (some v)).1 = true)
      (h2 : process_guess g pid v = some g2) :
      Step g g2
  | club {g : Game} (pid : Int)
      (h : (is_valid_move g pid .club none).1 = true) :
      Step g (process_club g pid)
  | flinch {g : Game} (pid : Int)
      (h : (is_valid_move g pid .flinch none).1 = true) :
      Step g (process_flinch g pid)

/-- Reflexive-transitive closure of `Step`, anchored at a starting session. -/
inductive Reachable (g0 : Game) : Game → Prop where
  | refl : Reachable g0 g0
  | tail {g1 g2 : Game} : Reachable g0 g1 → Step g1 g2 → Reachable g0 g2

/-- A session is initial when it is the record produced by Database.create_game
for some ids and creation time. -/
def IsInitial (g : Game) : Prop :=
  ∃ gid p1 p2 t, g = create_game gid p1 p2 t

/-- Concrete fresh two-player session used by the witnesses: ids 10 and 20. -/
def g0ex : Game := create_game 1 10 (some 20) 0

/-- Session after seat A commits 2 in `g0ex`: phase PLAYER2_GUESS, pending slap
of seat A set. -/
def g1ex : Game := process_slap g0ex 10 2

/-- Session after seat B flinches in `g1ex`: phase PLAYER1_CHOOSE_SLAP, yet the
pending slap of seat A is still set. -/
def g2ex : Game := process_flinch g1ex 20

/-- Result of seat B guessing 2 in `g1ex`: diff 0, both seats lose 1 HP, round
advances to 2, and the turn goes back to seat B (the seat that just guessed). -/
def gGex : Game :=
  { game_id := 1, player1_id := 10, player2_id := some 20,
    player1_hp := 19, player2_hp := 19,
    player1_clubs := 0, player2_clubs := 0,
    player1_flinches := 0, player2_flinches := 0,
    current_turn := some 20, round_number := 2,
    state := .player2_choose_slap,
    player1_slap := none, player2_slap := none,
    created_at := 0, updated_at := 0 }

/-- Initial session of a game against the scripted opponent (seat B unbound)
after seat A commits 2: phase PLAYER2_GUESS with no occupant in seat B. -/
def gAIex : Game := process_slap (create_game 1 10 none 0) 10 2

lemma optEqInt_true {o : Option Int} {p : Int} : optEqInt o p = true ↔ o = some p := by
  cases o <;> simp [optEqInt]

lemma valid_slap_value (g : Game) (pid v : Int)
    (h : (is_valid_move g pid .slap (some v)).1 = true) : v = 1 ∨ v = 2 ∨ v = 3 := by
  unfold is_valid_move at h
  repeat' split at h
  all_goals simp_all [valueIn123]
  all_goals tauto

lemma valid_guess_elim (g : Game) (pid v : Int)
    (h : (is_valid_move g pid .guess (some v)).1 = true) :
    (pid = g.player1_id ∨ g.player2_id = some pid) ∧
    (pid = g.player1_id → g.state = .player1_guess) ∧
    (g.player2_id = some pid → g.state = .player2_guess) := by
  unfold is_valid_move at h
  repeat' split at h
  all_goals simp_all [optEqInt_true]
  all_goals tauto

/-- The round resolution of a guess never leaves the session in a guessing
phase. -/
lemma finish_round_state (g : Game) :
    (finish_round g).state = .game_end ∨
    (finish_round g).state = .player1_choose_slap ∨
    (finish_round g).state = .player2_choose_slap := by
  unfold finish_round
  split
  · simp
  · by_cases hpar : ((g.round_number + 1) % 2 == 1) = true <;> simp [hpar]

/-- Round resolution does not change the hit points (damage is applied before
it runs). -/
lemma finish_round_hp (g : Game) :
    (finish_round g).player1_hp = g.player1_hp ∧
    (finish_round g).player2_hp = g.player2_hp := by
  unfold finish_round
  split
  · simp
  · by_cases hpar : ((g.round_number + 1) % 2 == 1) = true <;> simp [hpar]

/-- A club never leaves the session in a guessing phase. -/
lemma process_club_state (g : Game) (pid : Int) :
    (process_club g pid).state = .game_end ∨
    (process_club g pid).state = .player1_choose_slap ∨
    (process_club g pid).state = .player2_choose_slap := by
  unfold process_club
  by_cases hp : (pid == g.player1_id) = true <;> simp only [hp, Bool.false_eq_true,
    if_true, if_false] <;> split_ifs <;> simp

/-- A flinch never leaves the session in a guessing phase. -/
lemma process_flinch_state (g : Game) (pid : Int) :
    (process_flinch g pid).state = .game_end ∨
    (process_flinch g pid).state = .player1_choose_slap ∨
    (process_flinch g pid).state = .player2_choose_slap := by
  unfold process_flinch
  by_cases hp : (pid == g.player1_id) = true <;> simp only [hp, Bool.false_eq_true,
    if_true, if_false] <;> split_ifs <;> simp

/-- Guessing-phase invariant: whenever the phase says a seat is guessing, the
opposing pending slap holds a value in the 1-3 domain. -/
def GuessPhaseInv (g : Game) : Prop :=
  (g.state = .player2_guess → ∃ v, g.player1_slap = some v ∧ 1 ≤ v ∧ v ≤ 3) ∧
  (g.state = .player1_guess → ∃ v, g.player2_slap = some v ∧ 1 ≤ v ∧ v ≤ 3)

/-- Every validated step establishes the guessing-phase invariant on its
result: a slap stores the validated 1-3 value for the phase it enters, and a
guess, club, or flinch never lands in a guessing phase. -/
lemma step_inv {g g2 : Game} (h : Step g g2) : GuessPhaseInv g2 := by
  cases h with
  | slap pid v hv =>
      have hb : 1 ≤ v ∧ v ≤ 3 := by
        rcases valid_slap_value g pid v hv with h1 | h1 | h1 <;> omega
      by_cases hp : (pid == g.player1_id) = true <;>
        refine ⟨fun hs => ?_, fun hs => ?_⟩ <;>
        simp only [process_slap, hp, Bool.false_eq_true, if_true, if_false] at hs ⊢ <;>
        first
          | exact ⟨v, rfl, hb.1, hb.2⟩
          | simp_all
  | guess pid v hv h2 =>
      have hst : g2.state = .game_end ∨ g2.state = .player1_choose_slap ∨
          g2.state = .player2_choose_slap := by
        unfold process_guess at h2
        split at h2 <;> split at h2 <;>
          first
            | exact Option.noConfusion h2
            | (injection h2 with h2; rw [← h2]; exact finish_round_state _)
      rcases hst with h | h | h <;>
        exact ⟨fun hs => by rw [h] at hs; simp at hs,
               fun hs => by rw [h] at hs; simp at hs⟩
  | club pid hv =>
      rcases process_club_state g pid with h | h | h <;>
        exact ⟨fun hs => by rw [h] at hs; simp at hs,
               fun hs => by rw [h] at hs; simp at hs⟩
  | flinch pid hv =>
      rcases process_flinch_state g pid with h | h | h <;>
        exact ⟨fun hs => by rw [h] at hs; simp at hs,
               fun hs => by rw [h] at hs; simp at hs⟩

/-- Every session reachable from an initial session by validated steps enjoys
the guessing-phase invariant. -/
lemma reachable_inv {g0 g : Game} (h0 : IsInitial g0) (h : Reachable g0 g) :
    GuessPhaseInv g := by
  cases h with
  | refl =>
      obtain ⟨gid, p1, p2, t, rfl⟩ := h0
      exact ⟨fun hs => by simp [create_game] at hs,
             fun hs => by simp [create_game] at hs⟩
  | tail _ hstep => exact step_inv hstep

/-- C1: the claim requires `make_ai_move` to apply exactly one legal action
whenever seat B is unbound and the phase is PLAYER2_CHOOSE_SLAP or
PLAYER2_GUESS.  The code does the opposite: the guard on game_logic.py line 228
(`if not game.player2_id: return game`) makes the function a no-op exactly on
the sessions its own comment on the same line (only AI games have no
player2_id) designates as its purpose.  Evaluated here on `gAIex`, an unbound
session in phase PLAYER2_GUESS: for every value of both random draws the
session comes back unchanged, so no action at all is applied. -/
theorem c1_make_ai_move_unbound_noop (r : Bool) (v : Int) :
    gAIex.player2_id = none ∧ gAIex.state = .player2_guess ∧
    make_ai_move gAIex r v = some gAIex :=
  ⟨rfl, rfl, rfl⟩

/-- Closed instance of `c1_make_ai_move_unbound_noop` at one concrete pair of
random draws. -/
theorem c1_make_ai_move_unbound_noop_witness :
    gAIex.player2_id = none ∧ gAIex.state = .player2_guess ∧
    make_ai_move gAIex true 2 = some gAIex :=
  c1_make_ai_move_unbound_noop true 2

/-- C2 counterexample: the claimed biconditional (pending commit of seat X is
set iff the phase has the opponent guessing seat X) fails at a session
reachable by validated applies.  From the fresh session `g0ex` seat A commits 2
(validated slap), then seat B flinches (validated flinch); process_flinch
(game_logic.py lines 179-203) moves the phase to PLAYER1_CHOOSE_SLAP without
clearing `player1_slap`, which is still `some 2`. -/
theorem c2_counterexample :
    g0ex.state = .player1_choose_slap ∧ g0ex.player1_slap = none ∧
    g0ex.player2_slap = none ∧ Reachable g0ex g2ex ∧
    ¬ ((g2ex.player1_slap ≠ none ↔ g2ex.state = .player2_guess) ∧
       (g2ex.player2_slap ≠ none ↔ g2ex.state = .player1_guess)) := by
  refine ⟨rfl, rfl, rfl, ?_, ?_⟩
  · exact Reachable.tail (Reachable.tail Reachable.refl (@Step.slap g0ex 10 2 (by decide)))
      (@Step.flinch g1ex 20 (by decide))
  · decide

/-- C2 (amended): in every session reachable from an initial session by
validated applies, the pending commit of seat X is set whenever the phase has
the opponent guessing seat X.  The converse direction of the claimed
biconditional is false: a flinch leaves the stale pending commit of the seat
that had committed while moving the phase to a choosing-commit phase, as
`c2_counterexample` shows, so only this direction survives. -/
theorem c2_amended {g0 g : Game} (h0 : IsInitial g0) (h : Reachable g0 g) :
    (g.state = .player2_guess → g.player1_slap ≠ none) ∧
    (g.state = .player1_guess → g.player2_slap ≠ none) := by
  obtain ⟨inv1, inv2⟩ := reachable_inv h0 h
  refine ⟨fun hs => ?_, fun hs => ?_⟩
  · obtain ⟨v, hv, _⟩ := inv1 hs
    simp [hv]
  · obtain ⟨v, hv, _⟩ := inv2 hs
    simp [hv]

/-- Closed instance of `c2_amended` at the concrete initial session `g0ex`. -/
theorem c2_amended_witness :
    (g0ex.state = .player2_guess → g0ex.player1_slap ≠ none) ∧
    (g0ex.state = .player1_guess → g0ex.player2_slap ≠ none) :=
  c2_amended ⟨1, 10, some 20, 0, rfl⟩ Reachable.refl

/-- Facts about a round resolution that does not end the game: the round
counter advances by one, both pending slaps are cleared, and the new phase and
turn are selected by the parity of the new round number. -/
lemma finish_round_alive (g : Game) (h : (finish_round g).state ≠ .game_end) :
    (finish_round g).round_number = g.round_number + 1 ∧
    (finish_round g).player1_slap = none ∧
    (finish_round g).player2_slap = none ∧
    (((finish_round g).round_number % 2 == 1) = true →
      (finish_round g).state = .player1_choose_slap ∧
      (finish_round g).current_turn = some g.player1_id) ∧
    (((finish_round g).round_number % 2 == 1) = false →
      (finish_round g).state = .player2_choose_slap ∧
      (finish_round g).current_turn = g.player2_id) := by
  unfold finish_round at h ⊢
  by_cases hend : (decide (g.player1_hp ≤ 0) || decide (g.player2_hp ≤ 0) ||
      decide (g.round_number ≥ TOTAL_ROUNDS)) = true
  · simp [hend] at h
  · rw [Bool.not_eq_true] at hend
    by_cases hpar : ((g.round_number + 1) % 2 == 1) = true <;> simp [hend, hpar]

/-- A club hands the turn to the opponent of the acting seat. -/
lemma process_club_turn (g : Game) (pid : Int) :
    (process_club g pid).current_turn =
      (if pid == g.player1_id then g.player2_id else some g.player1_id) := by
  unfold process_club
  by_cases hp : (pid == g.player1_id) = true <;>
    simp only [hp, Bool.false_eq_true, if_true, if_false] <;> split <;> simp

/-- A flinch hands the turn to the opponent of the acting seat. -/
lemma process_flinch_turn (g : Game) (pid : Int) :
    (process_flinch g pid).current_turn =
      (if pid == g.player1_id then g.player2_id else some g.player1_id) := by
  unfold process_flinch
  by_cases hp : (pid == g.player1_id) = true <;>
    simp only [hp, Bool.false_eq_true, if_true, if_false] <;> split <;> simp

/-- C3 counterexample: the claim requires every surviving guess to hand control
to the seat that did not guess.  In `g1ex` (round 1 of a fresh session, seat A
committed 2, phase PLAYER2_GUESS, turn of seat B with id 20) seat B makes the
validated guess 2; the round survives into round 2 and the new turn is seat B
again, the seat that just acted, not seat A with id 10: the code picks the new
turn by round parity (game_logic.py lines 143-149), which hands even rounds to
seat B regardless of who guessed. -/
theorem c3_counterexample :
    (is_valid_move g1ex 20 .guess (some 2)).1 = true ∧
    process_guess g1ex 20 2 = some gGex ∧
    gGex.state = .player2_choose_slap ∧
    gGex.current_turn = some 20 ∧
    g1ex.player1_id = 10 ∧
    gGex.current_turn ≠ some 10 := by
  decide

/-- C3 (amended): after a successful commit, club, or flinch the turn belongs
to the opponent of the seat that acted; after a guess that resolves a surviving
round the turn belongs to the seat selected by the parity of the incremented
round number (odd to seat A, even to seat B), which coincides with the guessing
seat itself whenever no club or flinch interrupt has shifted the committer
inside the round. -/
theorem c3_amended :
    (∀ g pid v, (is_valid_move g pid .slap (some v)).1 = true →
      (process_slap g pid v).current_turn =
        (if pid == g.player1_id then g.player2_id else some g.player1_id)) ∧
    (∀ g pid, (is_valid_move g pid .club none).1 = true →
      (process_club g pid).current_turn =
        (if pid == g.player1_id then g.player2_id else some g.player1_id)) ∧
    (∀ g pid, (is_valid_move g pid .flinch none).1 = true →
      (process_flinch g pid).current_turn =
        (if pid == g.player1_id then g.player2_id else some g.player1_id)) ∧
    (∀ g pid v g2, (is_valid_move g pid .guess (some v)).1 = true →
      process_guess g pid v = some g2 → g2.state ≠ .game_end →
      g2.current_turn =
        (if g2.round_number % 2 == 1 then some g.player1_id else g.player2_id)) := by
  refine ⟨?_, ?_, ?_, ?_⟩
  · intro g pid v _
    unfold process_slap
    by_cases hp : (pid == g.player1_id) = true <;>
      simp only [hp, Bool.false_eq_true, if_true, if_false]
  · intro g pid _
    exact process_club_turn g pid
  · intro g pid _
    exact process_flinch_turn g pid
  · intro g pid v g2 _ h2 hne
    unfold process_guess at h2
    split at h2 <;> split at h2 <;>
      first
        | exact Option.noConfusion h2
        | (injection h2 with h2
           rw [← h2] at hne
           obtain ⟨hr, hs1, hs2, hodd, heven⟩ := finish_round_alive _ hne
           rw [h2] at hodd heven
           by_cases hpar : (g2.round_number % 2 == 1) = true
           · rw [if_pos hpar]
             exact (hodd hpar).2
           · rw [if_neg hpar]
             exact (heven (by simpa using hpar)).2)

/-- Closed instance of `c3_amended` at concrete validated actions in a fresh
session: a slap and a club by seat A, and a flinch and a surviving guess by
seat B. -/
theorem c3_amended_witness :
    (process_slap g0ex 10 2).current_turn =
      (if (10 : Int) == g0ex.player1_id then g0ex.player2_id else some g0ex.player1_id) ∧
    (process_club g0ex 10).current_turn =
      (if (10 : Int) == g0ex.player1_id then g0ex.player2_id else some g0ex.player1_id) ∧
    (process_flinch g1ex 20).current_turn =
      (if (20 : Int) == g1ex.player1_id then g1ex.player2_id else some g1ex.player1_id) ∧
    gGex.current_turn =
      (if gGex.round_number % 2 == 1 then some g1ex.player1_id else g1ex.player2_id) :=
  ⟨c3_amended.1 g0ex 10 2 (by decide),
   c3_amended.2.1 g0ex 10 (by decide),
   c3_amended.2.2.1 g1ex 20 (by decide),
   c3_amended.2.2.2 g1ex 20 2 gGex (by decide) (by decide) (by decide)⟩

/-- C4: the damage table of calculate_damage holds exactly for every difference
reachable from the 1-3 value domain (0, 1, and 2 are the only reachable
differences), and a processed guess subtracts exactly the table damage from the
committing seat and exactly the table counter damage from the guessing seat. -/
theorem c4_damage_table :
    (∀ s q : Int, (s = 1 ∨ s = 2 ∨ s = 3) → (q = 1 ∨ q = 2 ∨ q = 3) →
      (s - q).natAbs = 0 ∨ (s - q).natAbs = 1 ∨ (s - q).natAbs = 2) ∧
    (∀ s q : Int, (s - q).natAbs = 0 → calculate_damage s q = (1, 1)) ∧
    (∀ s q : Int, (s - q).natAbs = 1 → calculate_damage s q = (2, 0)) ∧
    (∀ s q : Int, (s - q).natAbs = 2 → calculate_damage s q = (3, 0)) ∧
    (∀ g pid q s, pid = g.player1_id → g.player2_slap = some s →
      ∃ g2, process_guess g pid q = some g2 ∧
        g2.player1_hp = g.player1_hp - (calculate_damage s q).2 ∧
        g2.player2_hp = g.player2_hp - (calculate_damage s q).1) ∧
    (∀ g pid q s, pid ≠ g.player1_id → g.player1_slap = some s →
      ∃ g2, process_guess g pid q = some g2 ∧
        g2.player2_hp = g.player2_hp - (calculate_damage s q).2 ∧
        g2.player1_hp = g.player1_hp - (calculate_damage s q).1) := by
  refine ⟨?_, ?_, ?_, ?_, ?_, ?_⟩
  · rintro s q (rfl | rfl | rfl) (rfl | rfl | rfl) <;> decide
  · intro s q h
    simp [calculate_damage, h]
  · intro s q h
    simp [calculate_damage, h]
  · intro s q h
    simp [calculate_damage, h]
  · intro g pid q s hpid hs
    have hb : (pid == g.player1_id) = true := by simp [hpid]
    refine ⟨finish_round { g with player1_hp := g.player1_hp - (calculate_damage s q).2,
                                  player2_hp := g.player2_hp - (calculate_damage s q).1 },
            ?_, ?_, ?_⟩
    · simp [process_guess, hb, hs]
    · exact (finish_round_hp _).1
    · exact (finish_round_hp _).2
  · intro g pid q s hpid hs
    have hb : (pid == g.player1_id) = false := by simp [hpid]
    refine ⟨finish_round { g with player2_hp := g.player2_hp - (calculate_damage s q).2,
                                  player1_hp := g.player1_hp - (calculate_damage s q).1 },
            ?_, ?_, ?_⟩
    · simp [process_guess, hb, hs]
    · exact (finish_round_hp _).2
    · exact (finish_round_hp _).1

/-- Closed instance of `c4_damage_table` covering all six conjuncts at concrete
inputs. -/
theorem c4_damage_table_witness :
    (((2 : Int) - 3).natAbs = 0 ∨ ((2 : Int) - 3).natAbs = 1 ∨ ((2 : Int) - 3).natAbs = 2) ∧
    calculate_damage 2 2 = (1, 1) ∧
    calculate_damage 2 3 = (2, 0) ∧
    calculate_damage 1 3 = (3, 0) ∧
    (∃ g2, process_guess { g1ex with player2_slap := some 3 } 10 1 = some g2 ∧
      g2.player1_hp = { g1ex with player2_slap := some 3 }.player1_hp - (calculate_damage 3 1).2 ∧
      g2.player2_hp = { g1ex with player2_slap := some 3 }.player2_hp - (calculate_damage 3 1).1) ∧
    (∃ g2, process_guess g1ex 20 1 = some g2 ∧
      g2.player2_hp = g1ex.player2_hp - (calculate_damage 2 1).2 ∧
      g2.player1_hp = g1ex.player1_hp - (calculate_damage 2 1).1) :=
  ⟨c4_damage_table.1 2 3 (by decide) (by decide),
   c4_damage_table.2.1 2 2 (by decide),
   c4_damage_table.2.2.1 2 3 (by decide),
   c4_damage_table.2.2.2.1 1 3 (by decide),
   c4_damage_table.2.2.2.2.1 { g1ex with player2_slap := some 3 } 10 1 3 (by decide) (by decide),
   c4_damage_table.2.2.2.2.2 g1ex 20 1 2 (by decide) (by decide)⟩

/-- C5: a guess whose round resolution does not end the game (either seat at or
below zero hit points after damage, or the round counter at the configured
total, would end it and set the phase to GAME_END) advances the round counter
by exactly one, clears both pending commits, and selects the next committing
seat by the parity of the new round number (odd to seat A, even to seat B); a
club or a flinch never changes the round counter. -/
theorem c5_round_advance :
    (∀ g pid v g2, process_guess g pid v = some g2 → g2.state ≠ .game_end →
      g2.round_number = g.round_number + 1 ∧
      g2.player1_slap = none ∧
      g2.player2_slap = none ∧
      ((g2.round_number % 2 == 1) = true →
        g2.state = .player1_choose_slap ∧ g2.current_turn = some g.player1_id) ∧
      ((g2.round_number % 2 == 1) = false →
        g2.state = .player2_choose_slap ∧ g2.current_turn = g.player2_id)) ∧
    (∀ g pid, (process_club g pid).round_number = g.round_number) ∧
    (∀ g pid, (process_flinch g pid).round_number = g.round_number) := by
  refine ⟨?_, ?_, ?_⟩
  · intro g pid v g2 h2 hne
    unfold process_guess at h2
    split at h2 <;> split at h2 <;>
      first
        | exact Option.noConfusion h2
        | (injection h2 with h2
           rw [← h2] at hne
           obtain ⟨hr, hs1, hs2, hodd, heven⟩ := finish_round_alive _ hne
           rw [h2] at hr hs1 hs2 hodd heven
           exact ⟨hr, hs1, hs2, hodd, heven⟩)
  · intro g pid
    unfold process_club
    by_cases hp : (pid == g.player1_id) = true <;>
      simp only [hp, Bool.false_eq_true, if_true, if_false] <;> split <;> simp
  · intro g pid
    unfold process_flinch
    by_cases hp : (pid == g.player1_id) = true <;>
      simp only [hp, Bool.false_eq_true, if_true, if_false] <;> split <;> simp

/-- Closed instance of `c5_round_advance`: the surviving guess of seat B in
round 1 advances to round 2 with seat B committing, and a club or a flinch by
seat A keeps the round counter at 1. -/
theorem c5_round_advance_witness :
    (gGex.round_number = g1ex.round_number + 1 ∧
     gGex.player1_slap = none ∧
     gGex.player2_slap = none ∧
     ((gGex.round_number % 2 == 1) = true →
       gGex.state = .player1_choose_slap ∧ gGex.current_turn = some g1ex.player1_id) ∧
     ((gGex.round_number % 2 == 1) = false →
       gGex.state = .player2_choose_slap ∧ gGex.current_turn = g1ex.player2_id)) ∧
    (process_club g0ex 10).round_number = g0ex.round_number ∧
    (process_flinch g1ex 20).round_number = g1ex.round_number :=
  ⟨c5_round_advance.1 g1ex 20 2 gGex (by decide) (by decide),
   c5_round_advance.2.1 g0ex 10,
   c5_round_advance.2.2 g1ex 20⟩

/-- C6: determine_winner is a total function; on a session in phase GAME_END it
returns a draw exactly when both seats are at or below zero hit points,
otherwise the opponent of the single knocked-out seat wins, otherwise (the
round-limit case with both seats above zero) the strictly higher-hit-point seat
wins and equal hit points are a draw; on any session whose phase is not
GAME_END it returns the not-over-yet tag and names no winner.  The winning id
returned for seat B is the occupant id stored in `player2_id`, exactly as the
source returns `game.player2_id` on lines 214 and 221. -/
theorem c6_determine_winner_cases :
    (∀ g, g.state ≠ .game_end → determine_winner g = (none, .notOverYet)) ∧
    (∀ g, g.state = .game_end →
      ((g.player1_hp ≤ 0 ∧ g.player2_hp ≤ 0) → determine_winner g = (none, .draw)) ∧
      ((g.player1_hp ≤ 0 ∧ 0 < g.player2_hp) →
        determine_winner g = (g.player2_id, .playerWins)) ∧
      ((0 < g.player1_hp ∧ g.player2_hp ≤ 0) →
        determine_winner g = (some g.player1_id, .playerWins)) ∧
      ((0 < g.player1_hp ∧ 0 < g.player2_hp ∧ g.player2_hp < g.player1_hp) →
        determine_winner g = (some g.player1_id, .playerWinsByHp)) ∧
      ((0 < g.player1_hp ∧ 0 < g.player2_hp ∧ g.player1_hp < g.player2_hp) →
        determine_winner g = (g.player2_id, .playerWinsByHp)) ∧
      ((0 < g.player1_hp ∧ 0 < g.player2_hp ∧ g.player1_hp = g.player2_hp) →
        determine_winner g = (none, .draw))) := by
  constructor
  · intro g hg
    have hb : (g.state == .game_end) = false := by
      simp [hg]
    simp [determine_winner, hb]
  · intro g hg
    have hb : (g.state == .game_end) = true := by
      simp [hg]
    refine ⟨?_, ?_, ?_, ?_, ?_, ?_⟩ <;>
      (intro h
       unfold determine_winner
       rw [hb]
       rw [if_neg (by simp : ¬((!true) = true))]
       split_ifs with h2 h3 h4 h5 h6 <;>
         first
           | rfl
           | (simp only [Bool.and_eq_true, decide_eq_true_eq] at h2
              omega))

/-- Closed instance of `c6_determine_winner_cases`: a running session is not
over yet, and a finished session with seat A knocked out names seat B. -/
theorem c6_determine_winner_cases_witness :
    determine_winner g0ex = (none, .notOverYet) ∧
    determine_winner { g0ex with state := .game_end, player1_hp := 0 } =
      ({ g0ex with state := .game_end, player1_hp := 0 }.player2_id, .playerWins) :=
  ⟨(c6_determine_winner_cases.1 g0ex (by decide)),
   ((c6_determine_winner_cases.2 { g0ex with state := .game_end, player1_hp := 0 }
      rfl).2.1 ⟨by decide, by decide⟩)⟩

/-- C7: the timeout predicate holds exactly when the elapsed time since the
last update strictly exceeds the configured timeout, and in particular it is
true at a last update of now minus timeout-plus-one and false at a last update
of now minus timeout-minus-one.  The claim is settled against the comparison of
game_logic.py line 254 with the current time supplied explicitly, because the
source function itself can never return: game_logic.py calls `time.time()`
without importing `time`, so every call raises NameError (the callers in
utils.py line 134 would crash). -/
theorem c7_timeout_iff (g : Game) (now : Int) :
    (check_game_timeout g now = true ↔ now - g.updated_at > GAME_TIMEOUT) ∧
    check_game_timeout { g with updated_at := now - (GAME_TIMEOUT + 1) } now = true ∧
    check_game_timeout { g with updated_at := now - (GAME_TIMEOUT - 1) } now = false := by
  refine ⟨?_, ?_, ?_⟩
  · simp [check_game_timeout]
  · simp only [check_game_timeout, GAME_TIMEOUT, decide_eq_true_eq]
    omega
  · simp only [check_game_timeout, GAME_TIMEOUT, decide_eq_false_iff_not, not_lt]
    omega

/-- Closed instance of `c7_timeout_iff` at the fresh session and time 1000. -/
theorem c7_timeout_iff_witness :
    (check_game_timeout g0ex 1000 = true ↔ 1000 - g0ex.updated_at > GAME_TIMEOUT) ∧
    check_game_timeout { g0ex with updated_at := 1000 - (GAME_TIMEOUT + 1) } 1000 = true ∧
    check_game_timeout { g0ex with updated_at := 1000 - (GAME_TIMEOUT - 1) } 1000 = false :=
  c7_timeout_iff g0ex 1000

/-- C8: when the acting seat holds the turn and is one of the two seats of the
session, a club attempt with the club counter at or past the configured
maximum fails with the exhausted-clubs rejection, and a flinch attempt with the
flinch counter at or past the configured maximum fails with the
exhausted-flinches rejection; and every rejected action leaves the loaded
session untouched in the validate-then-apply flow of the bot handlers. -/
theorem c8_exhausted_rejection :
    (∀ g pid, optEqInt g.current_turn pid = true →
      (pid = g.player1_id ∨ g.player2_id = some pid) →
      MAX_CLUBS ≤ (if pid == g.player1_id then g.player1_clubs else g.player2_clubs) →
      is_valid_move g pid .club none = (false, .clubsExhausted)) ∧
    (∀ g pid, optEqInt g.current_turn pid = true →
      (pid = g.player1_id ∨ g.player2_id = some pid) →
      MAX_FLINCHES ≤ (if pid == g.player1_id then g.player1_flinches else g.player2_flinches) →
      is_valid_move g pid .flinch none = (false, .flinchesExhausted)) ∧
    (∀ g pid a v, (is_valid_move g pid a v).1 = false → handle_action g pid a v = some g) := by
  refine ⟨?_, ?_, ?_⟩
  · intro g pid ht hm hc
    have hmb : (pid == g.player1_id || optEqInt g.player2_id pid) = true := by
      rcases hm with hm | hm <;> simp [hm, optEqInt_true]
    unfold is_valid_move
    rw [ht, hmb]
    simp only [Bool.not_true, Bool.false_eq_true, if_false, ite_false]
    rw [if_pos hc]
  · intro g pid ht hm hc
    have hmb : (pid == g.player1_id || optEqInt g.player2_id pid) = true := by
      rcases hm with hm | hm <;> simp [hm, optEqInt_true]
    unfold is_valid_move
    rw [ht, hmb]
    simp only [Bool.not_true, Bool.false_eq_true, if_false, ite_false]
    rw [if_pos hc]
  · intro g pid a v hrej
    unfold handle_action
    rw [hrej]
    simp

/-- Closed instance of `c8_exhausted_rejection`: seat A with both counters at
the maximum is rejected for a club and for a flinch, and a rejected action by
an outside id leaves the session unchanged. -/
theorem c8_exhausted_rejection_witness :
    is_valid_move { g0ex with player1_clubs := 2, player1_flinches := 2 } 10 .club none =
      (false, .clubsExhausted) ∧
    is_valid_move { g0ex with player1_clubs := 2, player1_flinches := 2 } 10 .flinch none =
      (false, .flinchesExhausted) ∧
    handle_action g0ex 99 .club none = some g0ex :=
  ⟨c8_exhausted_rejection.1 { g0ex with player1_clubs := 2, player1_flinches := 2 } 10
     (by decide) (by decide) (by decide),
   c8_exhausted_rejection.2.1 { g0ex with player1_clubs := 2, player1_flinches := 2 } 10
     (by decide) (by decide) (by decide),
   c8_exhausted_rejection.2.2 g0ex 99 .club none (by decide)⟩

/-- C9: a club from the choosing-commit phase of the acting seat increments
that seat's club counter only, subtracts the fixed club damage from the
opponent's hit points only, leaves the round counter and both pending commits
untouched, points the turn and the phase at the opponent's choosing-commit
phase, and overrides the phase with GAME_END exactly when either side is then
at or below zero hit points (in the shipped configuration the club damage is 4,
so an opponent at 20 drops to 16, as the witness shows). -/
theorem c9_club_effect :
    (∀ g pid, pid = g.player1_id → g.state = .player1_choose_slap →
      (process_club g pid).player1_clubs = g.player1_clubs + 1 ∧
      (process_club g pid).player2_clubs = g.player2_clubs ∧
      (process_club g pid).player2_hp = g.player2_hp - CLUB_DAMAGE ∧
      (process_club g pid).player1_hp = g.player1_hp ∧
      (process_club g pid).round_number = g.round_number ∧
      (process_club g pid).player1_slap = g.player1_slap ∧
      (process_club g pid).player2_slap = g.player2_slap ∧
      (process_club g pid).current_turn = g.player2_id ∧
      ((process_club g pid).state = .game_end ↔
        (g.player1_hp ≤ 0 ∨ g.player2_hp - CLUB_DAMAGE ≤ 0)) ∧
      (¬(g.player1_hp ≤ 0 ∨ g.player2_hp - CLUB_DAMAGE ≤ 0) →
        (process_club g pid).state = .player2_choose_slap)) ∧
    (∀ g pid, pid ≠ g.player1_id → g.state = .player2_choose_slap →
      (process_club g pid).player2_clubs = g.player2_clubs + 1 ∧
      (process_club g pid).player1_clubs = g.player1_clubs ∧
      (process_club g pid).player1_hp = g.player1_hp - CLUB_DAMAGE ∧
      (process_club g pid).player2_hp = g.player2_hp ∧
      (process_club g pid).round_number = g.round_number ∧
      (process_club g pid).player1_slap = g.player1_slap ∧
      (process_club g pid).player2_slap = g.player2_slap ∧
      (process_club g pid).current_turn = some g.player1_id ∧
      ((process_club g pid).state = .game_end ↔
        (g.player1_hp - CLUB_DAMAGE ≤ 0 ∨ g.player2_hp ≤ 0)) ∧
      (¬(g.player1_hp - CLUB_DAMAGE ≤ 0 ∨ g.player2_hp ≤ 0) →
        (process_club g pid).state = .player1_choose_slap)) := by
  constructor
  · intro g pid hpid _
    have hb : (pid == g.player1_id) = true := by simp [hpid]
    unfold process_club
    simp only [hb, Bool.false_eq_true, if_true, if_false]
    split_ifs with hend <;>
      simp only [Bool.or_eq_true, decide_eq_true_eq] at hend
    · refine ⟨rfl, rfl, rfl, rfl, rfl, rfl, rfl, rfl, ?_, ?_⟩
      · exact ⟨fun _ => hend, fun _ => rfl⟩
      · intro hn
        exact absurd hend hn
    · refine ⟨rfl, rfl, rfl, rfl, rfl, rfl, rfl, rfl, ?_, fun _ => rfl⟩
      constructor
      · intro hx
        exact absurd hx (by decide)
      · intro hx
        exact absurd hx hend
  · intro g pid hpid _
    have hb : (pid == g.player1_id) = false := by simp [hpid]
    unfold process_club
    simp only [hb, Bool.false_eq_true, if_true, if_false]
    split_ifs with hend <;>
      simp only [Bool.or_eq_true, decide_eq_true_eq] at hend
    · refine ⟨rfl, rfl, rfl, rfl, rfl, rfl, rfl, rfl, ?_, ?_⟩
      · exact ⟨fun _ => hend, fun _ => rfl⟩
      · intro hn
        exact absurd hend hn
    · refine ⟨rfl, rfl, rfl, rfl, rfl, rfl, rfl, rfl, ?_, fun _ => rfl⟩
      constructor
      · intro hx
        exact absurd hx (by decide)
      · intro hx
        exact absurd hx hend

/-- Closed instance of `c9_club_effect`: seat A clubs from its choosing-commit
phase in the fresh session, dropping seat B from 20 to 16 hit points. -/
theorem c9_club_effect_witness :
    (process_club g0ex 10).player1_clubs = g0ex.player1_clubs + 1 ∧
    (process_club g0ex 10).player2_clubs = g0ex.player2_clubs ∧
    (process_club g0ex 10).player2_hp = g0ex.player2_hp - CLUB_DAMAGE ∧
    (process_club g0ex 10).player1_hp = g0ex.player1_hp ∧
    (process_club g0ex 10).round_number = g0ex.round_number ∧
    (process_club g0ex 10).player1_slap = g0ex.player1_slap ∧
    (process_club g0ex 10).player2_slap = g0ex.player2_slap ∧
    (process_club g0ex 10).current_turn = g0ex.player2_id ∧
    ((process_club g0ex 10).state = .game_end ↔
      (g0ex.player1_hp ≤ 0 ∨ g0ex.player2_hp - CLUB_DAMAGE ≤ 0)) ∧
    (¬(g0ex.player1_hp ≤ 0 ∨ g0ex.player2_hp - CLUB_DAMAGE ≤ 0) →
      (process_club g0ex 10).state = .player2_choose_slap) :=
  c9_club_effect.1 g0ex 10 rfl rfl

/-- C10: in every session reachable from an initial session by validated
applies, a guessing phase always finds the opposing pending commit set to a
value in the 1-3 domain, and therefore every validated guess produces a result:
the subtraction inside process_guess is never evaluated against an unset
commit (in the source a `None` commit would raise TypeError on
`abs(slap_count - guess_count)`, embedded here as the `none` result). -/
theorem c10_guess_always_defined {g0 g : Game} (h0 : IsInitial g0)
    (h : Reachable g0 g) :
    (g.state = .player2_guess → ∃ v, g.player1_slap = some v ∧ 1 ≤ v ∧ v ≤ 3) ∧
    (g.state = .player1_guess → ∃ v, g.player2_slap = some v ∧ 1 ≤ v ∧ v ≤ 3) ∧
    (∀ pid v, (is_valid_move g pid .guess (some v)).1 = true →
      (process_guess g pid v).isSome = true) := by
  obtain ⟨inv1, inv2⟩ := reachable_inv h0 h
  refine ⟨inv1, inv2, ?_⟩
  intro pid v hv
  obtain ⟨hm, hp1, hp2⟩ := valid_guess_elim g pid v hv
  by_cases hb : pid = g.player1_id
  · obtain ⟨w, hw, _⟩ := inv2 (hp1 hb)
    have hbe : (pid == g.player1_id) = true := by simp [hb]
    simp [process_guess, hbe, hw]
  · have hmem : g.player2_id = some pid := by tauto
    obtain ⟨w, hw, _⟩ := inv1 (hp2 hmem)
    have hbe : (pid == g.player1_id) = false := by simp [hb]
    simp [process_guess, hbe, hw]

/-- Closed instance of `c10_guess_always_defined` at the reachable session
`g1ex`, in which seat B faces the committed value of seat A. -/
theorem c10_guess_always_defined_witness :
    (g1ex.state = .player2_guess → ∃ v, g1ex.player1_slap = some v ∧ 1 ≤ v ∧ v ≤ 3) ∧
    (g1ex.state = .player1_guess → ∃ v, g1ex.player2_slap = some v ∧ 1 ≤ v ∧ v ≤ 3) ∧
    (∀ pid v, (is_valid_move g1ex pid .guess (some v)).1 = true →
      (process_guess g1ex pid v).isSome = true) :=
  c10_guess_always_defined ⟨1, 10, some 20, 0, rfl⟩
    (Reachable.tail Reachable.refl (@Step.slap g0ex 10 2 (by decide)))
